import Mathlib

/-!
Verification of the `AgentClient` transport client of the agent-chat
frontend (src/services/agentClient.ts and src/types.ts).

The client sends one chat message per call. When a fragment callback is
supplied it first tries an SSE streaming attempt (`sendMessageWithStreaming`):
events are JSON payloads `{conversationId?, answer?, error?, done?}`, answer
fragments are accumulated and reported through the callback, a truthy `error`
field rejects, a truthy `done` field resolves, unparseable frames are logged
and ignored, a low-level connection error rejects, and a timer of
`this.timeout` milliseconds rejects with a timeout. On any streaming failure
the client falls back to a plain POST (`sendMessageNonStreaming`) guarded by
its own fresh timer.

The definitions below are a shallow embedding of that code: the `onmessage`
handler becomes a pure step function on an explicit accumulation state, the
whole streaming attempt becomes a fold over the list of inbound wire items
(frames, connection errors) tagged with arrival times, and the POST path
becomes a function of the fetch outcome. Callback invocations are logged in
the state so that claims about the callback can be stated.
-/

namespace AgentChat

/-- Role of a conversation turn, from src/types.ts: either the user or the assistant. -/
inductive Role where
  | user
  | assistant
  deriving DecidableEq, Repr

/-- One conversation turn (interface `Message` in src/types.ts). -/
structure Message where
  role : Role
  content : String
  deriving DecidableEq, Repr

/-- Request payload (interface `ChatRequest` in src/types.ts): optional
conversation identifier, the message text, and the prior turns. -/
structure ChatRequest where
  conversationId : Option String
  message : String
  history : List Message
  deriving DecidableEq, Repr

/-- Final response (interface `ChatResponse` in src/types.ts). -/
structure ChatResponse where
  conversationId : String
  answer : String
  deriving DecidableEq, Repr

/-- One parsed SSE payload (interface `SSEEvent` in src/types.ts): every field
is optional; `none` models an absent JSON field. -/
structure SSEEvent where
  conversationId : Option String
  answer : Option String
  error : Option String
  done : Bool
  deriving DecidableEq, Repr

/-- JavaScript truthiness of an optional string value: truthy exactly when the
field is present and non-empty (`undefined` and the empty string are falsy). -/
def isTruthy : Option String → Bool
  | none => false
  | some s => s != ""

/-- One inbound SSE frame as seen by the `onmessage` handler: either its
`event.data` parses as a structured `SSEEvent`, or `JSON.parse` throws. -/
inductive Frame where
  | ok (e : SSEEvent)
  | malformed
  deriving DecidableEq, Repr

/-- The per-call accumulation state of the streaming attempt
(agentClient.ts lines 75-76): the running answer, the conversation
identifier variable, and additionally the log of arguments passed to the
`onChunk` callback so far, so that callback behaviour can be stated. -/
structure StreamState where
  accumulatedAnswer : String
  conversationId : String
  chunks : List String
  deriving DecidableEq, Repr

/-- State at the start of a streaming attempt: both accumulators empty, no
callback invocation yet. -/
def initialStreamState : StreamState := ⟨"", "", []⟩

/-- Outcome of processing a prefix of the stream: still waiting, resolved with
a response, or rejected with an error message. -/
inductive StreamOutcome where
  | pending
  | completedWith (r : ChatResponse)
  | failedWith (e : String)
  deriving DecidableEq, Repr

/-- The `eventSource.onmessage` handler (agentClient.ts lines 90-119) as a pure
step. A malformed frame is caught, logged and ignored. Otherwise, in order:
a truthy `error` field rejects with that text; a truthy `conversationId`
overwrites the identifier variable; a truthy `answer` is appended to the
accumulator and reported to the callback; a truthy `done` resolves with
`conversationId || request.conversationId || ''` and the accumulated answer. -/
def onMessage (request : ChatRequest) (st : StreamState) : Frame → StreamState × StreamOutcome
  | .malformed => (st, .pending)
  | .ok data =>
    if isTruthy data.error then
      (st, .failedWith (Option.getD data.error ""))
    else
      let cid := if isTruthy data.conversationId then Option.getD data.conversationId "" else st.conversationId
      let ans := if isTruthy data.answer then st.accumulatedAnswer ++ Option.getD data.answer "" else st.accumulatedAnswer
      let ch := if isTruthy data.answer then st.chunks ++ [Option.getD data.answer ""] else st.chunks
      if data.done then
        (⟨ans, cid, ch⟩, .completedWith ⟨if cid != "" then cid else Option.getD request.conversationId "", ans⟩)
      else
        (⟨ans, cid, ch⟩, .pending)

/-- Repeated invocation of the `onmessage` handler on successive inbound
frames, stopping at the first terminal outcome; `.pending` if the frames are
exhausted with no terminal event (the connection stays open and only the
timer, modelled separately, would settle the promise). -/
def processFrames (request : ChatRequest) (st : StreamState) : List Frame → StreamState × StreamOutcome
  | [] => (st, .pending)
  | f :: fs =>
    match onMessage request st f with
    | (st', StreamOutcome.pending) => processFrames request st' fs
    | r => r

/-- Resources held by a streaming attempt: whether the EventSource connection
is still open and whether the timeout timer is still pending (scheduled and
not yet fired or cleared). -/
structure Resources where
  connOpen : Bool
  timerPending : Bool
  deriving DecidableEq, Repr

/-- Result of a whole streaming attempt: final accumulation state, final
resource state at the moment the promise settles, and the settled outcome. -/
structure StreamRun where
  state : StreamState
  resources : Resources
  outcome : StreamOutcome
  deriving DecidableEq, Repr

/-- One item arriving on the wire during a streaming attempt: either a frame
delivered to `onmessage`, or a low-level connection error delivered to
`onerror` (agentClient.ts lines 121-124). -/
inductive WireItem where
  | frame (f : Frame)
  | connError
  deriving DecidableEq, Repr

/-- The streaming attempt loop. `c` is the configured timeout in
milliseconds; each wire item is tagged with its arrival time measured from
the start of this attempt. An item arriving at or after `c` is never
delivered: the timer (agentClient.ts lines 85-88) fires first, runs
`cleanup()` and rejects with a timeout; likewise when the wire is exhausted
with no terminal event. A connection error runs `cleanup()` and rejects. A
frame is handed to the `onmessage` step; on a terminal outcome `cleanup()`
(lines 79-82: close the EventSource, clear the timer) runs before the promise
settles. -/
def streamLoop (c : Nat) (request : ChatRequest) (st : StreamState) : List (Nat × WireItem) → StreamRun
  | [] => ⟨st, ⟨false, false⟩, .failedWith ("Request timeout")⟩
  | (t, w) :: rest =>
    if c ≤ t then
      ⟨st, ⟨false, false⟩, .failedWith ("Request timeout")⟩
    else
      match w with
      | WireItem.connError => ⟨st, ⟨false, false⟩, .failedWith ("SSE connection error")⟩
      | WireItem.frame f =>
        match onMessage request st f with
        | (st', StreamOutcome.pending) => streamLoop c request st' rest
        | (st', o) => ⟨st', ⟨false, false⟩, o⟩

/-- The whole streaming attempt (`sendMessageWithStreaming`,
agentClient.ts lines 60-126): fresh accumulation state and both resources
held at the start. -/
def sendMessageWithStreaming (c : Nat) (request : ChatRequest) (items : List (Nat × WireItem)) : StreamRun :=
  streamLoop c request initialStreamState items

/-- A JSON value, used to model the unvalidated body returned by
`response.json()` on the non-streaming path. -/
inductive Json where
  | null
  | bool (b : Bool)
  | num (n : Int)
  | str (s : String)
  | arr (xs : List Json)
  | obj (fields : List (String × Json))

/-- An HTTP response as observed by the non-streaming path: status code,
the body text (`none` when `response.text()` rejects) and the JSON-decoded
body (`none` when `response.json()` rejects). -/
structure HttpResponse where
  status : Nat
  bodyText : Option String
  jsonBody : Option Json

/-- The `response.ok` flag of the Fetch API: status in the range 200-299. -/
def responseOk (r : HttpResponse) : Bool := 200 ≤ r.status && r.status ≤ 299

/-- How the `fetch` call of the non-streaming path resolves, with `duration`
measured from the start of this attempt: either an HTTP response arrives, or
the call rejects with a low-level network error. -/
inductive FetchOutcome where
  | response (duration : Nat) (resp : HttpResponse)
  | networkError (duration : Nat) (msg : String)

/-- Result of a non-streaming attempt: whether the abort controller fired and
the settled result. -/
structure FallbackRun where
  aborted : Bool
  result : Except String Json

/-- The non-streaming POST path (`sendMessageNonStreaming`, agentClient.ts
lines 131-166). A fresh timer of `c` milliseconds aborts the in-flight call;
the resulting AbortError is rethrown as a timeout (lines 159-161). If the
fetch settles first: a rejection is rethrown unchanged; a non-ok status
throws an error built from the status code and the body text, with a generic
placeholder when the body cannot be read (lines 149-152); an ok status
returns the JSON-decoded body with no validation of its shape (lines
154-155). The message of a `response.json()` rejection is
environment-specific; it is modelled by a fixed placeholder on which no claim
depends. -/
def sendMessageNonStreaming (c : Nat) (fo : FetchOutcome) : FallbackRun :=
  match fo with
  | .networkError d msg =>
    if c ≤ d then ⟨true, .error ("Request timeout")⟩
    else ⟨false, .error msg⟩
  | .response d resp =>
    if c ≤ d then ⟨true, .error ("Request timeout")⟩
    else if !(responseOk resp) then
      ⟨false, .error ("HTTP " ++ toString resp.status ++ ": " ++ Option.getD resp.bodyText ("Unknown error"))⟩
    else
      match resp.jsonBody with
      | some j => ⟨false, .ok j⟩
      | none => ⟨false, .error ("Invalid JSON in response body")⟩

/-- What the `sendMessage` orchestration did: whether the streaming attempt
was entered, and the request passed to the non-streaming path when that path
was issued. -/
structure SendLog where
  streamingAttempted : Bool
  fallbackRequest : Option ChatRequest

/-- The `sendMessage` orchestration (agentClient.ts lines 27-55) with the two
transports injected as functions of the request, so that every possible
transport behaviour is covered. When `onChunk` is provided the streaming
attempt runs first and its success is returned; any streaming rejection is
caught, logged, and the non-streaming path is issued with the same `request`
value; without `onChunk` only the non-streaming path runs. -/
def sendMessage {R : Type} (request : ChatRequest) (hasOnChunk : Bool)
    (streamAttempt : ChatRequest → Except String R)
    (fallbackAttempt : ChatRequest → Except String R) :
    Except String R × SendLog :=
  if hasOnChunk then
    match streamAttempt request with
    | .ok r => (.ok r, ⟨true, none⟩)
    | .error _ => (fallbackAttempt request, ⟨true, some request⟩)
  else
    (fallbackAttempt request, ⟨false, some request⟩)

/-- Serialization of a `ChatResponse` as the JSON object the server would
send, used to give the two transports one result type in the timed model. -/
def chatResponseJson (r : ChatResponse) : Json :=
  Json.obj [("conversationId", Json.str r.conversationId), ("answer", Json.str r.answer)]

/-- Timed composition of `sendMessage` when `onChunk` is provided: the
streaming attempt runs with its own timer; if it settles with anything other
than a completion, the non-streaming path runs with a fresh timer of the same
duration `c`, its fetch duration measured from its own start. -/
def sendMessageTimed (c : Nat) (request : ChatRequest) (items : List (Nat × WireItem)) (fo : FetchOutcome) : Except String Json :=
  match (sendMessageWithStreaming c request items).outcome with
  | StreamOutcome.completedWith r => .ok (chatResponseJson r)
  | _ => (sendMessageNonStreaming c fo).result

/-- Ordered concatenation of a list of strings. -/
def concatAll : List String → String
  | [] => ""
  | s :: rest => s ++ concatAll rest

/-- The non-empty answer fragments of a list of events, in order: exactly the
values a truthy `answer` field contributes. -/
def eventFragments (evs : List SSEEvent) : List String :=
  evs.filterMap fun e => if isTruthy e.answer then e.answer else none

/-- The last truthy (present and non-empty) conversation identifier of a list
of events, if any. -/
def lastNonEmptyCid : List SSEEvent → Option String
  | [] => none
  | e :: rest =>
    match lastNonEmptyCid rest with
    | some c => some c
    | none => if isTruthy e.conversationId then e.conversationId else none

/-- The value of the `conversationId` variable after folding a list of events
over the update rule of the handler, starting from `d`. -/
def cidFold (d : String) (evs : List SSEEvent) : String :=
  evs.foldl (fun acc e => if isTruthy e.conversationId then Option.getD e.conversationId "" else acc) d

/-- An event that neither rejects nor resolves: its `error` field is falsy
and its `done` flag is not set. -/
def nonTerminal (e : SSEEvent) : Bool := !(isTruthy e.error) && !e.done

theorem isTruthy_none : isTruthy none = false := rfl

theorem isTruthy_some (s : String) : isTruthy (some s) = (s != "") := rfl

theorem concatAll_append (a b : List String) :
    concatAll (a ++ b) = concatAll a ++ concatAll b := by
  induction a with
  | nil => simp [concatAll]
  | cons s rest ih => simp [concatAll, ih, String.append_assoc]

theorem processFrames_append (request : ChatRequest) (ys xs : List Frame) :
    ∀ st : StreamState,
    processFrames request st (xs ++ ys) =
      (match processFrames request st xs with
       | (st', StreamOutcome.pending) => processFrames request st' ys
       | r => r) := by
  induction xs with
  | nil => intro st; simp [processFrames]
  | cons x xs ih =>
    intro st
    simp only [List.cons_append, processFrames]
    rcases h : onMessage request st x with ⟨st', o⟩
    cases o with
    | pending => simp [ih st']
    | completedWith r => simp
    | failedWith e => simp

theorem processFrames_all_nonTerminal (request : ChatRequest) (evs : List SSEEvent) :
    ∀ st : StreamState, (∀ e ∈ evs, nonTerminal e = true) →
    processFrames request st (evs.map Frame.ok) =
      (⟨st.accumulatedAnswer ++ concatAll (eventFragments evs),
        cidFold st.conversationId evs,
        st.chunks ++ eventFragments evs⟩, StreamOutcome.pending) := by
  induction evs with
  | nil =>
    intro st _
    simp [processFrames, eventFragments, concatAll, cidFold]
  | cons e evs ih =>
    intro st h
    have he : nonTerminal e = true := h e (List.mem_cons_self e evs)
    have herr : isTruthy e.error = false := by
      have := he
      simp [nonTerminal] at this
      exact this.1
    have hdone : e.done = false := by
      have := he
      simp [nonTerminal] at this
      exact this.2
    have htail : ∀ p ∈ evs, nonTerminal p = true := fun p hp => h p (List.mem_cons_of_mem e hp)
    simp only [List.map_cons, processFrames, onMessage, herr, hdone, Bool.false_eq_true,
      if_false, if_true]
    rw [ih _ htail]
    cases ha : e.answer with
    | none =>
      simp [eventFragments, List.filterMap_cons, ha, isTruthy, cidFold]
    | some a =>
      by_cases hne : a = ""
      · simp [eventFragments, List.filterMap_cons, ha, hne, isTruthy, cidFold]
      · have : isTruthy e.answer = true := by simp [isTruthy, ha, hne]
        simp [eventFragments, List.filterMap_cons, ha, hne, isTruthy, cidFold, concatAll,
          String.append_assoc]

theorem cidFold_eq_lastNonEmptyCid (evs : List SSEEvent) :
    ∀ d : String, cidFold d evs =
      (match lastNonEmptyCid evs with
       | some c => c
       | none => d) := by
  induction evs with
  | nil => intro d; simp [cidFold, lastNonEmptyCid]
  | cons e evs ih =>
    intro d
    simp only [cidFold, List.foldl_cons, lastNonEmptyCid]
    rw [show List.foldl (fun acc e => if isTruthy e.conversationId then Option.getD e.conversationId "" else acc)
        (if isTruthy e.conversationId then Option.getD e.conversationId "" else d) evs =
        cidFold (if isTruthy e.conversationId then Option.getD e.conversationId "" else d) evs from rfl]
    rw [ih]
    cases hl : lastNonEmptyCid evs with
    | some c => simp
    | none =>
      cases hc : e.conversationId with
      | none => simp [isTruthy]
      | some c => by_cases hce : c = "" <;> simp [isTruthy, hce]

theorem lastNonEmptyCid_ne_empty (evs : List SSEEvent) :
    ∀ c : String, lastNonEmptyCid evs = some c → c ≠ "" := by
  induction evs with
  | nil => intro c hc; simp [lastNonEmptyCid] at hc
  | cons e evs ih =>
    intro c hc
    simp only [lastNonEmptyCid] at hc
    cases hl : lastNonEmptyCid evs with
    | some c' =>
      rw [hl] at hc
      have hcc : c' = c := by simpa using hc
      subst hcc
      exact ih c' hl
    | none =>
      rw [hl] at hc
      cases hcid : e.conversationId with
      | none => rw [hcid] at hc; simp [isTruthy] at hc
      | some s =>
        rw [hcid] at hc
        by_cases hse : s = ""
        · simp [isTruthy, hse] at hc
        · simp [isTruthy, hse] at hc
          subst hc
          exact hse

/-- C6: an inbound stream event whose payload fails to parse is ignored: it is
caught and logged without touching the accumulated answer, the conversation
identifier, the callback log, or the outcome of the operation, and the remaining
events are processed exactly as if the malformed frame had never arrived. -/
theorem malformed_frame_ignored (request : ChatRequest) (st : StreamState) (pre post : List Frame) :
    processFrames request st (pre ++ Frame.malformed :: post) =
      processFrames request st (pre ++ post) := by
  rw [processFrames_append request (Frame.malformed :: post) pre st,
      processFrames_append request post pre st]
  rcases h : processFrames request st pre with ⟨st', o⟩
  cases o with
  | pending => simp [processFrames, onMessage]
  | completedWith r => simp
  | failedWith e => simp

/-- C3 (amended): a StreamEvent carrying a non-empty (truthy) error field,
received at any position after only non-terminal events, terminates the
streaming operation immediately in the Failed state rejecting with that error
text: the events after it are never processed (the run equals the run without
them) and no event with the done flag is required. -/
theorem errorEvent_terminates_stream (request : ChatRequest) (st : StreamState)
    (pre : List SSEEvent) (e : SSEEvent) (post : List Frame)
    (hpre : ∀ p ∈ pre, nonTerminal p = true)
    (herr : isTruthy e.error = true) :
    processFrames request st (pre.map Frame.ok ++ Frame.ok e :: post) =
      processFrames request st (pre.map Frame.ok ++ [Frame.ok e])
    ∧ (processFrames request st (pre.map Frame.ok ++ [Frame.ok e])).2 =
        StreamOutcome.failedWith (Option.getD e.error "") := by
  rw [processFrames_append request (Frame.ok e :: post) (pre.map Frame.ok) st,
      processFrames_append request [Frame.ok e] (pre.map Frame.ok) st,
      processFrames_all_nonTerminal request pre st hpre]
  simp [processFrames, onMessage, herr]

/-- C3 counterexample: the event `{error: ""}` carries an error field, yet the
truthiness check of the code skips it: the operation does not terminate in the
Failed state rejecting with that error text; the following done event is still
processed and the operation completes. -/
theorem errorEvent_claim_counterexample :
    (processFrames ⟨none, "hi", []⟩ initialStreamState
        [Frame.ok ⟨none, none, some "", false⟩, Frame.ok ⟨none, none, none, true⟩]).2 =
      StreamOutcome.completedWith ⟨"", ""⟩
    ∧ (processFrames ⟨none, "hi", []⟩ initialStreamState
        [Frame.ok ⟨none, none, some "", false⟩, Frame.ok ⟨none, none, none, true⟩]).2 ≠
      StreamOutcome.failedWith ("") := by
  constructor
  · rfl
  · decide

/-- C3 witness: a non-empty error event after one fragment event rejects with
the error text, and a later done event is never processed. -/
theorem errorEvent_terminates_stream_witness :
    processFrames ⟨none, "hi", []⟩ initialStreamState
        ([⟨none, some "He", none, false⟩].map Frame.ok ++
          Frame.ok ⟨none, none, some "boom", false⟩ :: [Frame.ok ⟨none, none, none, true⟩]) =
      processFrames ⟨none, "hi", []⟩ initialStreamState
        ([⟨none, some "He", none, false⟩].map Frame.ok ++ [Frame.ok ⟨none, none, some "boom", false⟩])
    ∧ (processFrames ⟨none, "hi", []⟩ initialStreamState
        ([⟨none, some "He", none, false⟩].map Frame.ok ++ [Frame.ok ⟨none, none, some "boom", false⟩])).2 =
        StreamOutcome.failedWith (Option.getD (some "boom") "") :=
  errorEvent_terminates_stream ⟨none, "hi", []⟩ initialStreamState
    [⟨none, some "He", none, false⟩] ⟨none, none, some "boom", false⟩
    [Frame.ok ⟨none, none, none, true⟩] (by decide) (by decide)

theorem cid_resolution (request : ChatRequest) (evs : List SSEEvent) :
    (if cidFold "" evs != "" then cidFold "" evs else Option.getD request.conversationId "") =
      (match lastNonEmptyCid evs with
       | some c => c
       | none => Option.getD request.conversationId "") := by
  rw [cidFold_eq_lastNonEmptyCid]
  cases hl : lastNonEmptyCid evs with
  | some c =>
    have hc := lastNonEmptyCid_ne_empty evs c hl
    simp [bne_iff_ne, hc]
  | none => simp

/-- C2 (amended): for every sequence of StreamEvents whose only terminal
event is a final one with the done flag set, the answer of the resulting
ChatResponse equals the ordered concatenation of every non-empty answer
fragment observed across all received StreamEvents up to and including the
terminal event (a fragment carried by the done event itself is appended
before the completion flag is honoured), and the fragment callback is invoked
exactly once per such fragment, with that same sequence of fragments in the
same order. -/
theorem streaming_answer_is_fragment_concat (request : ChatRequest)
    (pre : List SSEEvent) (lastEv : SSEEvent)
    (hpre : ∀ p ∈ pre, nonTerminal p = true)
    (herr : isTruthy lastEv.error = false)
    (hdone : lastEv.done = true) :
    (processFrames request initialStreamState ((pre ++ [lastEv]).map Frame.ok)).1.chunks =
      eventFragments (pre ++ [lastEv])
    ∧ ∃ cid, (processFrames request initialStreamState ((pre ++ [lastEv]).map Frame.ok)).2 =
        StreamOutcome.completedWith ⟨cid, concatAll (eventFragments (pre ++ [lastEv]))⟩ := by
  simp only [List.map_append, List.map_cons, List.map_nil]
  rw [processFrames_append request [Frame.ok lastEv] (pre.map Frame.ok) initialStreamState,
      processFrames_all_nonTerminal request pre initialStreamState hpre]
  simp only [initialStreamState, eventFragments, List.filterMap_append, concatAll_append]
  cases ha : lastEv.answer with
  | none =>
    simp [processFrames, onMessage, herr, hdone, ha, isTruthy_none, concatAll]
  | some a =>
    by_cases hae : a = ""
    · simp [processFrames, onMessage, herr, hdone, ha, hae, isTruthy_some, concatAll]
    · simp [processFrames, onMessage, herr, hdone, ha, hae, isTruthy_some, bne_iff_ne,
        concatAll, String.append_assoc]

/-- C2 counterexample: for the single event `{answer: "x", done: true}` the
set of StreamEvents received before the completion flag is set is empty, so
the claim predicts the answer `""` and no callback invocation; the code
appends the fragment carried by the done event itself before resolving, so
the answer is `"x"` and the callback fires once. -/
theorem streaming_answer_claim_counterexample :
    (processFrames ⟨none, "hi", []⟩ initialStreamState [Frame.ok ⟨none, some "x", none, true⟩]).2 =
      StreamOutcome.completedWith ⟨"", "x"⟩
    ∧ (processFrames ⟨none, "hi", []⟩ initialStreamState [Frame.ok ⟨none, some "x", none, true⟩]).1.chunks =
      ["x"]
    ∧ concatAll (eventFragments ([] : List SSEEvent)) = ""
    ∧ ("x" : String) ≠ ("") := by
  refine ⟨rfl, rfl, rfl, ?_⟩
  decide

/-- C2 witness: end-to-end scenario A, request message `"hi"`, events
`{answer:"He"}`, `{answer:"llo"}`, `{done:true, conversationId:"c1"}`: the
callback log is `["He", "llo"]` and the accumulated answer is their
concatenation `"Hello"`. -/
theorem streaming_answer_is_fragment_concat_witness :
    ((processFrames ⟨none, "hi", []⟩ initialStreamState
        ((([⟨none, some "He", none, false⟩, ⟨none, some "llo", none, false⟩] : List SSEEvent) ++
          ([⟨some "c1", none, none, true⟩] : List SSEEvent)).map Frame.ok)).1.chunks =
      eventFragments (([⟨none, some "He", none, false⟩, ⟨none, some "llo", none, false⟩] : List SSEEvent) ++
          ([⟨some "c1", none, none, true⟩] : List SSEEvent))
    ∧ ∃ cid, (processFrames ⟨none, "hi", []⟩ initialStreamState
        ((([⟨none, some "He", none, false⟩, ⟨none, some "llo", none, false⟩] : List SSEEvent) ++
          ([⟨some "c1", none, none, true⟩] : List SSEEvent)).map Frame.ok)).2 =
        StreamOutcome.completedWith
          ⟨cid, concatAll (eventFragments (([⟨none, some "He", none, false⟩, ⟨none, some "llo", none, false⟩] : List SSEEvent) ++
            ([⟨some "c1", none, none, true⟩] : List SSEEvent)))⟩)
    ∧ eventFragments (([⟨none, some "He", none, false⟩, ⟨none, some "llo", none, false⟩] : List SSEEvent) ++
          ([⟨some "c1", none, none, true⟩] : List SSEEvent)) = ["He", "llo"]
    ∧ concatAll ["He", "llo"] = "Hello" :=
  ⟨streaming_answer_is_fragment_concat ⟨none, "hi", []⟩
      [⟨none, some "He", none, false⟩, ⟨none, some "llo", none, false⟩]
      ⟨some "c1", none, none, true⟩ (by decide) (by decide) rfl,
    by decide, by decide⟩

/-- C4: for every streamed completion, the conversationId of the resulting
ChatResponse is the last non-empty conversationId field seen across the
received StreamEvents, or the conversationId of the original request when no
non-empty identifier was observed, or the empty string when the request also
carried none. -/
theorem streaming_conversationId_resolution (request : ChatRequest)
    (pre : List SSEEvent) (lastEv : SSEEvent)
    (hpre : ∀ p ∈ pre, nonTerminal p = true)
    (herr : isTruthy lastEv.error = false)
    (hdone : lastEv.done = true) :
    ∃ ans, (processFrames request initialStreamState ((pre ++ [lastEv]).map Frame.ok)).2 =
      StreamOutcome.completedWith
        ⟨(match lastNonEmptyCid (pre ++ [lastEv]) with
          | some c => c
          | none => Option.getD request.conversationId ""), ans⟩ := by
  have hstep : (if isTruthy lastEv.conversationId then Option.getD lastEv.conversationId ""
      else cidFold "" pre) = cidFold "" (pre ++ [lastEv]) := by
    simp [cidFold, List.foldl_append]
  simp only [List.map_append, List.map_cons, List.map_nil]
  rw [processFrames_append request [Frame.ok lastEv] (pre.map Frame.ok) initialStreamState,
      processFrames_all_nonTerminal request pre initialStreamState hpre]
  simp only [initialStreamState]
  simp only [processFrames, onMessage, herr, hdone, Bool.false_eq_true, if_false, if_true]
  rw [hstep, cid_resolution request (pre ++ [lastEv])]
  exact ⟨_, rfl⟩

/-- C4 witness: events carry identifiers `"c0"` then an empty one; the last
non-empty identifier `"c1"` arrives with the done event and wins over the
identifier of the request itself, namely `"r"`. -/
theorem streaming_conversationId_resolution_witness :
    (∃ ans, (processFrames ⟨some "r", "hi", []⟩ initialStreamState
        ((([⟨some "c0", some "He", none, false⟩, ⟨some "", none, none, false⟩] : List SSEEvent) ++
          ([⟨some "c1", none, none, true⟩] : List SSEEvent)).map Frame.ok)).2 =
      StreamOutcome.completedWith
        ⟨(match lastNonEmptyCid (([⟨some "c0", some "He", none, false⟩, ⟨some "", none, none, false⟩] : List SSEEvent) ++
            ([⟨some "c1", none, none, true⟩] : List SSEEvent)) with
          | some c => c
          | none => Option.getD (some "r") ""), ans⟩)
    ∧ lastNonEmptyCid (([⟨some "c0", some "He", none, false⟩, ⟨some "", none, none, false⟩] : List SSEEvent) ++
        ([⟨some "c1", none, none, true⟩] : List SSEEvent)) = some "c1" :=
  ⟨streaming_conversationId_resolution ⟨some "r", "hi", []⟩
      [⟨some "c0", some "He", none, false⟩, ⟨some "", none, none, false⟩]
      ⟨some "c1", none, none, true⟩ (by decide) (by decide) rfl,
    by decide⟩

/-- C1: when a fragment callback is supplied and the streaming attempt fails
for any reason whatever, sendMessage swallows that failure and issues the
non-streaming fallback with the same, unmodified request, and the result of the fallback
 — success or failure alike — is the one returned to the caller; the
streaming error never reaches the caller. -/
theorem sendMessage_streamingFailure_fallsBack {R : Type} (request : ChatRequest)
    (streamAttempt fallbackAttempt : ChatRequest → Except String R) (e : String)
    (h : streamAttempt request = .error e) :
    sendMessage request true streamAttempt fallbackAttempt =
      (fallbackAttempt request, ⟨true, some request⟩) := by
  simp [sendMessage, h]

/-- C1 witness: end-to-end scenario B, the stream connection fails
immediately and the fallback returns conversation `"c2"` with answer `"ok"`;
that payload is the final result and the fallback saw the original request. -/
theorem sendMessage_streamingFailure_fallsBack_witness :
    sendMessage ⟨none, "hi", []⟩ true
        (fun _ => Except.error ("SSE connection error"))
        (fun _ => Except.ok (⟨"c2", "ok"⟩ : ChatResponse)) =
      (Except.ok (⟨"c2", "ok"⟩ : ChatResponse), ⟨true, some ⟨none, "hi", []⟩⟩) :=
  sendMessage_streamingFailure_fallsBack ⟨none, "hi", []⟩
    (fun _ => Except.error ("SSE connection error"))
    (fun _ => Except.ok (⟨"c2", "ok"⟩ : ChatResponse)) "SSE connection error" rfl

/-- C5: when no fragment callback is supplied the streaming path is never
attempted: only the non-streaming path executes with the original request,
and the overall result does not depend on how streaming would have behaved. -/
theorem sendMessage_noCallback_noStreaming {R : Type} (request : ChatRequest)
    (streamAttempt streamAttempt' fallbackAttempt : ChatRequest → Except String R) :
    sendMessage request false streamAttempt fallbackAttempt =
      (fallbackAttempt request, ⟨false, some request⟩)
    ∧ sendMessage request false streamAttempt fallbackAttempt =
      sendMessage request false streamAttempt' fallbackAttempt := by
  constructor <;> simp [sendMessage]

theorem streamLoop_resources (c : Nat) (request : ChatRequest) (items : List (Nat × WireItem)) :
    ∀ st : StreamState,
    (streamLoop c request st items).resources = ⟨false, false⟩
    ∧ (streamLoop c request st items).outcome ≠ StreamOutcome.pending := by
  induction items with
  | nil => intro st; exact ⟨rfl, by simp [streamLoop]⟩
  | cons x rest ih =>
    intro st
    rcases x with ⟨t, w⟩
    by_cases hc : c ≤ t
    · simp [streamLoop, hc]
    · cases w with
      | connError => simp [streamLoop, hc]
      | frame f =>
        rcases h : onMessage request st f with ⟨st', o⟩
        cases o with
        | pending => simpa [streamLoop, hc, h] using ih st'
        | completedWith r => simp [streamLoop, hc, h]
        | failedWith e => simp [streamLoop, hc, h]

/-- C9: on every exit path of the streaming attempt — completion, explicit
error event, low-level connection error, and timeout — the stream connection
is closed and no timeout timer is left pending, both released before the
attempt settles; and the attempt always settles in a terminal outcome. -/
theorem streaming_resources_released (c : Nat) (request : ChatRequest) (items : List (Nat × WireItem)) :
    (sendMessageWithStreaming c request items).resources = ⟨false, false⟩
    ∧ (sendMessageWithStreaming c request items).outcome ≠ StreamOutcome.pending :=
  streamLoop_resources c request items initialStreamState

/-- C7: each transport attempt is bounded by the same configured timeout `c`,
measured from its own start: a streaming attempt whose wire items all arrive
at or after `c` rejects with the timeout error, the fallback then runs and
its result is the result of the operation, a fallback fetch that settles within a
fresh full window of `c` is not aborted — even though the streaming attempt
already consumed a whole window — and a fallback fetch still in flight at `c`
is aborted and surfaces the timeout error. -/
theorem timeout_independent_per_attempt (c : Nat) (request : ChatRequest)
    (items : List (Nat × WireItem)) (d : Nat) (resp : HttpResponse)
    (hitems : ∀ x ∈ items, c ≤ x.1) :
    (sendMessageWithStreaming c request items).outcome = StreamOutcome.failedWith ("Request timeout")
    ∧ sendMessageTimed c request items (FetchOutcome.response d resp) =
        (sendMessageNonStreaming c (FetchOutcome.response d resp)).result
    ∧ (d < c → (sendMessageNonStreaming c (FetchOutcome.response d resp)).aborted = false)
    ∧ (c ≤ d → (sendMessageNonStreaming c (FetchOutcome.response d resp)).aborted = true
        ∧ (sendMessageNonStreaming c (FetchOutcome.response d resp)).result =
          Except.error ("Request timeout")) := by
  have hout : (sendMessageWithStreaming c request items).outcome =
      StreamOutcome.failedWith ("Request timeout") := by
    cases items with
    | nil => rfl
    | cons x rest =>
      have hx := hitems x (List.mem_cons_self x rest)
      rcases x with ⟨t, w⟩
      simp [sendMessageWithStreaming, streamLoop, hx]
  refine ⟨hout, ?_, ?_, ?_⟩
  · simp [sendMessageTimed, hout]
  · intro hd
    have hd' : ¬ c ≤ d := Nat.not_le.mpr hd
    simp only [sendMessageNonStreaming, hd', if_false]
    split
    · rfl
    · split <;> rfl
  · intro hd
    constructor <;> simp [sendMessageNonStreaming, hd]

/-- C7 witness: with a timeout of 1, a connection error arriving at time 1 is
never delivered — the streaming attempt rejects with the timeout — and an
immediate fallback response is not aborted: its window restarted. -/
theorem timeout_independent_per_attempt_witness :
    (sendMessageWithStreaming 1 ⟨none, "hi", []⟩ [(1, WireItem.connError)]).outcome =
      StreamOutcome.failedWith ("Request timeout")
    ∧ (sendMessageNonStreaming 1 (FetchOutcome.response 0 ⟨200, some "", some Json.null⟩)).aborted = false :=
  ⟨(timeout_independent_per_attempt 1 ⟨none, "hi", []⟩ [(1, WireItem.connError)] 0
      ⟨200, some "", some Json.null⟩ (by decide)).1,
    (timeout_independent_per_attempt 1 ⟨none, "hi", []⟩ [(1, WireItem.connError)] 0
      ⟨200, some "", some Json.null⟩ (by decide)).2.2.1 (by decide)⟩

/-- C8: every non-2xx status of the fallback POST that settles within the
timeout fails the operation with an error built from the numeric status code
and the diagnostic text the server returned, or the generic placeholder when
the body cannot be read. -/
theorem nonOk_status_surfaced (c d : Nat) (resp : HttpResponse)
    (hd : d < c) (hok : responseOk resp = false) :
    (sendMessageNonStreaming c (FetchOutcome.response d resp)).result =
      Except.error ("HTTP " ++ toString resp.status ++ ": " ++ Option.getD resp.bodyText ("Unknown error")) := by
  have hd' : ¬ c ≤ d := Nat.not_le.mpr hd
  simp [sendMessageNonStreaming, hd', hok]

/-- C8 witness: end-to-end scenario C, a 500 response with body
`"server error"` fails with an error carrying status 500 and that text. -/
theorem nonOk_status_surfaced_witness :
    (sendMessageNonStreaming 1 (FetchOutcome.response 0 ⟨500, some "server error", none⟩)).result =
      Except.error ("HTTP 500: server error") :=
  nonOk_status_surfaced 1 0 ⟨500, some "server error", none⟩ (by decide) (by decide)

/-- C10: a fallback response with a success status that settles within the
timeout has its JSON-decoded body returned unchanged, with no validation of
its shape: any JSON value, including an object missing the conversationId and
answer fields, is returned to the caller rather than raising an error. -/
theorem ok_body_returned_unvalidated (c d : Nat) (resp : HttpResponse) (j : Json)
    (hd : d < c) (hok : responseOk resp = true) (hj : resp.jsonBody = some j) :
    (sendMessageNonStreaming c (FetchOutcome.response d resp)).result = Except.ok j := by
  have hd' : ¬ c ≤ d := Nat.not_le.mpr hd
  simp [sendMessageNonStreaming, hd', hok, hj]

/-- C10 witness: a 200 response whose body is the empty JSON object — neither
a conversationId nor an answer field — is returned as-is. -/
theorem ok_body_returned_unvalidated_witness :
    (sendMessageNonStreaming 1 (FetchOutcome.response 0 ⟨200, some "", some (Json.obj [])⟩)).result =
      Except.ok (Json.obj []) :=
  ok_body_returned_unvalidated 1 0 ⟨200, some "", some (Json.obj [])⟩ (Json.obj [])
    (by decide) (by decide) rfl

end AgentChat
